import Mathlib

/-!
Shallow embedding of the HelixFlow core (helixflow-core/src/task.rs) and the
SurrealDb backend adapter (backends/helixflow-surreal/src/lib.rs), together
with theorems settling the specification claims about the create-then-verify
protocol, the relationship short-circuit protocol and the error taxonomy.

Rust `Result` is embedded as an explicit two-constructor inductive, UUIDs by
their 128-bit value (only identity matters to the core), `anyhow::Error` by
its opaque message, and `Box<dyn HelixFlowItem>` by a closed enumeration over
the two entity kinds. Code that is `todo!()` in the source (it panics on
every call) is embedded as a function into `Option`, with `none` standing
for the panic.
-/

namespace HelixFlow

/-- A UUID, modelled by its 128-bit value; the core only ever compares ids. -/
structure Uuid where
  val : Nat
deriving DecidableEq

/-- An opaque `anyhow::Error`, modelled by its message. -/
abbrev AnyhowError := String

/-- `Task` from helixflow-core/src/task.rs: name, client-generated id,
optional description. -/
structure Task where
  name : String
  id : Uuid
  description : Option String
deriving DecidableEq

/-- `TaskList` from helixflow-core/src/task.rs: name and client-generated id. -/
structure TaskList where
  name : String
  id : Uuid
deriving DecidableEq

/-- Closed enumeration standing for `Box<dyn HelixFlowItem>`: the only two
implementors of the `HelixFlowItem` marker trait are `Task` and `TaskList`. -/
inductive DynHelixFlowItem where
  | task (t : Task)
  | taskList (l : TaskList)
deriving DecidableEq

/-- The `HelixFlowError` enum. Note that the `Relationship` variant in the
source is declared `Relationship {}` and carries no data at all. -/
inductive HelixFlowError where
  | backendError (msg : AnyhowError)
  | mismatch (expected actual : DynHelixFlowItem)
  | invalidID (id : String)
  | notFound (itemtype : String) (id : Uuid)
  | relationship
deriving DecidableEq

/-- Rust `Result<A, E>`. -/
inductive RustResult (α ε : Type) where
  | ok (val : α)
  | error (err : ε)
deriving DecidableEq

/-- `HelixFlowResult<T> = Result<T, HelixFlowError>`. -/
abbrev HelixFlowResult (α : Type) := RustResult α HelixFlowError

/-- Rust `Result::is_ok`. -/
def RustResult.is_ok : RustResult α ε → Bool
  | .ok _ => true
  | .error _ => false

/-- The `HelixFlowItem` trait, reduced to the capability the core actually
uses: boxing the item into the type-erased form used by `Mismatch`. -/
class HelixFlowItem (α : Type) where
  box_item : α → DynHelixFlowItem

instance : HelixFlowItem Task := ⟨DynHelixFlowItem.task⟩

instance : HelixFlowItem TaskList := ⟨DynHelixFlowItem.taskList⟩

/-- `Contains<LEFT, RIGHT>`: an ordered relationship with independently
fallible Left and Right slots and a sortorder token. -/
structure Contains (LEFT RIGHT : Type) where
  left : HelixFlowResult LEFT
  sortorder : String
  right : HelixFlowResult RIGHT
deriving DecidableEq

/-- `std::ops::ControlFlow` at `Residual = Output = Contains` (both associated
types of the `Try` impl are `Self`). -/
inductive CFlow (α : Type) where
  | brk (residual : α)
  | cont (output : α)
deriving DecidableEq

/-- `Try for Contains::branch`: Continue when both slots are `Ok`, else Break. -/
def Contains.branch (self : Contains LEFT RIGHT) : CFlow (Contains LEFT RIGHT) :=
  if self.left.is_ok && self.right.is_ok then .cont self else .brk self

/-- `Try for Contains::from_output` is `todo!()` in the source: it panics on
every call. The panic is modelled as `none`. -/
def Contains.from_output (_output : Contains LEFT RIGHT) :
    Option (Contains LEFT RIGHT) := none

/-- `FromResidual<Contains<LEFT, RIGHT>> for Contains<LEFT, RIGHT>` is
`todo!()` in the source: it panics on every call. Modelled as `none`. -/
def Contains.from_residual (_residual : Contains LEFT RIGHT) :
    Option (Contains LEFT RIGHT) := none

/-- `FromResidual<Contains<LEFT, RIGHT>> for HelixFlowResult<()>` is `todo!()`
in the source: converting a break-state relationship into a plain pass/fail
result panics on every call. Modelled as `none`. -/
def Contains.from_residual_result (_residual : Contains LEFT RIGHT) :
    Option (HelixFlowResult Unit) := none

/-- The `blocking::Store<ITEM>` trait, as a record of the backend operations. -/
structure Store (ITEM : Type) where
  create : ITEM → HelixFlowResult ITEM
  get : Uuid → HelixFlowResult ITEM

/-- `blocking::CRUD::create` for any `ITEM: HelixFlowItem + PartialEq + Clone`:
call the backend, then verify the returned record against the intent. -/
def CRUD.create {ITEM : Type} [DecidableEq ITEM] [HelixFlowItem ITEM]
    (self : ITEM) (backend : Store ITEM) : HelixFlowResult Unit :=
  match backend.create self with
  | .error e => .error e
  | .ok created_item =>
    if created_item = self then .ok ()
    else .error (.mismatch (HelixFlowItem.box_item self)
                           (HelixFlowItem.box_item created_item))

/-- `blocking::CRUD::get`: a pure pass-through to `Store::get`. -/
def CRUD.get {ITEM : Type} (backend : Store ITEM) (id : Uuid) :
    HelixFlowResult ITEM :=
  backend.get id

/-- `blocking::CRUD::create` with the borrowed item threaded through
explicitly: the Rust method takes `&self` by shared reference and `Task` has
no interior mutability, so the value the caller holds after the call is the
value passed in. The pair is (result of the call, the item after the call). -/
def CRUD.create_tracked {ITEM : Type} [DecidableEq ITEM] [HelixFlowItem ITEM]
    (self : ITEM) (backend : Store ITEM) : HelixFlowResult Unit × ITEM :=
  (CRUD.create self backend, self)

/-- The `blocking::Relate<Contains<TaskList, Task>>` trait (with associated
type `Left = TaskList`), as a record of the backend operations. -/
structure RelateContains where
  create_linked_item : Contains TaskList Task → HelixFlowResult (Contains TaskList Task)
  get_linked_items : TaskList → HelixFlowResult (List (Contains TaskList Task))

/-- `Link for Contains<TaskList, Task>::create_linked_item`: when both slots
are `Ok`, call the backend and verify the returned Right against the intended
Right; otherwise return the error of a failed slot without calling the
backend (the source does this with two `?` operators on the slots). -/
def Link.create_linked_item (self : Contains TaskList Task)
    (backend : RelateContains) : HelixFlowResult Unit :=
  if self.left.is_ok && self.right.is_ok then
    match backend.create_linked_item self with
    | .error e => .error e
    | .ok created =>
      match self.right with
      | .error e => .error e
      | .ok expected =>
        match created.right with
        | .ok task =>
          if task = expected then .ok ()
          else .error (.mismatch (.task expected) (.task task))
        | .error e => .error e
  else
    match self.left with
    | .error e => .error e
    | .ok _ =>
      match self.right with
      | .error e => .error e
      | .ok _ => .ok ()

/-- `Linkable<Contains<TaskList, Task>> for TaskList::link`: both slots `Ok`
(clones of the endpoints), sortorder hardcoded to "a". -/
def TaskList.link (self : TaskList) (task : Task) : Contains TaskList Task :=
  { left := .ok self, sortorder := "a", right := .ok task }

/-- `Linkable::get_linked_items`: a pure pass-through to the backend. -/
def Linkable.get_linked_items (self : TaskList) (backend : RelateContains) :
    HelixFlowResult (List (Contains TaskList Task)) :=
  backend.get_linked_items self

/-- Id of "Task 1" hardcoded in `TestBackend`. -/
def uuid_task1 : Uuid := ⟨0x0196b4c984477959ae1f72c7c8a3dd36⟩

/-- Id of "Task 2" hardcoded in `TestBackend`. -/
def uuid_task2 : Uuid := ⟨0x0196ca5fd9347ec8b042ae37b94b8432⟩

/-- `Store<Task> for TestBackend::get`: two hardcoded records, anything else
is `NotFound`. The source matches on the canonical string rendering of the
id, which is injective, so it is embedded as equality of ids. -/
def TestBackend.get_task (id : Uuid) : HelixFlowResult Task :=
  if id = uuid_task1 then .ok { name := "Task 1", id := id, description := none }
  else if id = uuid_task2 then .ok { name := "Task 2", id := id, description := none }
  else .error (.notFound "Task" id)

/-- `surrealdb::sql::Id`, restricted to the variants relevant here: the code
only distinguishes `Id::Uuid` from everything else. -/
inductive SurrealId where
  | uuid (u : Uuid)
  | strg (s : String)
  | number (n : Int)
deriving DecidableEq

/-- The `Display` rendering of a `surrealdb::sql::Id`, as used for the
`InvalidID` payload. -/
def SurrealId.to_string : SurrealId → String
  | .uuid u => toString u.val
  | .strg s => s
  | .number n => toString n

/-- `surrealdb::sql::Thing`: a table name plus a record id. -/
structure Thing where
  tb : String
  id : SurrealId
deriving DecidableEq

/-- The stored form of a Task as returned by SurrealDb. -/
structure SurrealTask where
  name : String
  id : Thing
  description : Option String
deriving DecidableEq

/-- `TryFrom<SurrealTask> for Task`: accept only an `Id::Uuid` identifier,
otherwise fail with `InvalidID` carrying the rendered identifier. -/
def SurrealTask.try_into (task : SurrealTask) : HelixFlowResult Task :=
  match task.id.id with
  | .uuid u => .ok { name := task.name, id := u, description := task.description }
  | other => .error (.invalidID other.to_string)

/-- `From<&Task> for SurrealTask`: wrap the id as `Thing("Tasks", Id::Uuid)`. -/
def SurrealTask.from (task : Task) : SurrealTask :=
  { name := task.name
    id := { tb := "Tasks", id := .uuid task.id }
    description := task.description }

/-- `Store<Task> for SurrealDb::get`, with the driver `select` call abstracted
as a function argument (it is external I/O): a driver error is wrapped as
`BackendError`, no record is `NotFound` with itemtype "Task", and a found
record is converted via `TryFrom`. -/
def SurrealDb.get_task
    (select : Uuid → RustResult (Option SurrealTask) AnyhowError)
    (id : Uuid) : HelixFlowResult Task :=
  match select id with
  | .error e => .error (.backendError e)
  | .ok none => .error (.notFound "Task" id)
  | .ok (some dbtask) => dbtask.try_into

/-- `Store<Task> for SurrealDb::create`, with the driver `create` call
abstracted as a function argument: a driver error is wrapped as
`BackendError`, a missing returned record becomes the `with_context` anyhow
error, and the returned record is converted via `TryFrom`. -/
def SurrealDb.create_task
    (dbcreate : SurrealTask → RustResult (Option SurrealTask) AnyhowError)
    (task : Task) : HelixFlowResult Task :=
  match dbcreate (SurrealTask.from task) with
  | .error e => .error (.backendError e)
  | .ok none => .error (.backendError "Creating new record in SurrealDb")
  | .ok (some dbtask) => dbtask.try_into

/-- The stored form of a TaskList as returned by SurrealDb. -/
structure SurrealTaskList where
  name : String
  id : Thing
deriving DecidableEq

/-- `TryFrom<SurrealTaskList> for TaskList`: accept only an `Id::Uuid`
identifier, otherwise fail with `InvalidID` carrying the rendered
identifier. -/
def SurrealTaskList.try_into (tasklist : SurrealTaskList) : HelixFlowResult TaskList :=
  match tasklist.id.id with
  | .uuid u => .ok { name := tasklist.name, id := u }
  | other => .error (.invalidID other.to_string)

/-- `From<&TaskList> for SurrealTaskList`: wrap the id as
`Thing("Tasklists", Id::Uuid)`. -/
def SurrealTaskList.from (tasklist : TaskList) : SurrealTaskList :=
  { name := tasklist.name
    id := { tb := "Tasklists", id := .uuid tasklist.id } }

/-- `Store<TaskList> for SurrealDb::get`, with the driver `select` call
abstracted as a function argument: a driver error is wrapped as
`BackendError`, no record is `NotFound` with itemtype "TaskList", and a
found record is converted via `TryFrom`. -/
def SurrealDb.get_tasklist
    (select : Uuid → RustResult (Option SurrealTaskList) AnyhowError)
    (id : Uuid) : HelixFlowResult TaskList :=
  match select id with
  | .error e => .error (.backendError e)
  | .ok none => .error (.notFound "TaskList" id)
  | .ok (some db_tasklist) => db_tasklist.try_into

/-- `Store<TaskList> for SurrealDb::create`, with the driver `create` call
abstracted as a function argument: a driver error is wrapped as
`BackendError`, a missing returned record becomes the `with_context` anyhow
error, and the returned record is converted via `TryFrom`. -/
def SurrealDb.create_tasklist
    (dbcreate : SurrealTaskList → RustResult (Option SurrealTaskList) AnyhowError)
    (tasklist : TaskList) : HelixFlowResult TaskList :=
  match dbcreate (SurrealTaskList.from tasklist) with
  | .error e => .error (.backendError e)
  | .ok none => .error (.backendError "Creating new record in SurrealDb")
  | .ok (some db_tasklist) => db_tasklist.try_into

/-- `Relate<Contains<TaskList, Task>> for SurrealDb::get_linked_items` is
`todo!()` in the source: it panics on every call. Modelled as `none`. -/
def SurrealDb.get_linked_items (_left : TaskList) :
    Option (HelixFlowResult (List (Contains TaskList Task))) := none

/-- `non_blocking::CRUD for Task::create`. The async backend returns
`anyhow::Result<Task>`, so the `?` wraps a backend error as
`HelixFlowError::BackendError` (via `#[from]`); the suspension point has no
semantic content in the embedding. -/
def NonBlocking.create (self : Task)
    (backend_create : Task → RustResult Task AnyhowError) :
    HelixFlowResult Unit :=
  match backend_create self with
  | .error e => .error (.backendError e)
  | .ok created_task =>
    if created_task = self then .ok ()
    else .error (.mismatch (.task self) (.task created_task))

/-- The wrapping of an `anyhow::Result<Task>` into the corresponding blocking
`Store` result: `#[from] anyhow::Error` yields `HelixFlowError::BackendError`. -/
def lift_anyhow (r : RustResult Task AnyhowError) : HelixFlowResult Task :=
  match r with
  | .ok t => .ok t
  | .error e => .error (.backendError e)

/-- C10: `TaskList::link` always constructs a continuable relationship with
left = Ok(the list), right = Ok(the task) and the constant sortorder token
"a"; the link API exposes no way to choose the ordering hint. -/
theorem tasklist_link_is_constant_continuable (l : TaskList) (t : Task) :
    TaskList.link l t = { left := .ok l, sortorder := "a", right := .ok t } ∧
    Contains.branch (TaskList.link l t) = .cont (TaskList.link l t) :=
  ⟨rfl, rfl⟩

/-- C3: converting a break-state relationship (Left = Err(x), Right = Ok(y))
to a plain pass/fail result does not produce an error carrying both sides:
the `FromResidual` impl is `todo!()` in the source and panics (modelled as
`none`), and the `Relationship` error variant carries no payload at all. -/
theorem from_residual_result_is_unimplemented :
    Contains.from_residual_result
      ({ left := .error (.backendError "boom")
         sortorder := "a"
         right := .ok { name := "t", id := ⟨7⟩, description := none } }
        : Contains TaskList Task) = none :=
  rfl

/-- C6: core operations do panic on well-formed input: `get_linked_items`
over the SurrealDb backend is `todo!()` and panics on every input, and the
residual conversion of any break-state relationship (a well-formed value with
one Err slot) panics as well. Panics are modelled as `none`. -/
theorem core_operations_reach_panics :
    (∀ left : TaskList, SurrealDb.get_linked_items left = none) ∧
    Contains.from_residual_result
      ({ left := .ok { name := "backlog", id := ⟨9⟩ }
         sortorder := "a"
         right := .error (.notFound "Task" ⟨10⟩) }
        : Contains TaskList Task) = none :=
  ⟨fun _ => rfl, rfl⟩

/-- C8: the non-blocking create has exactly the semantics of the blocking
create: for every task and every async backend result, it equals the blocking
`CRUD::create` run against the corresponding `Store` backend, namely the one
whose create is the async create with its anyhow error wrapped as
`BackendError` (and any `get`, which create never calls). -/
theorem non_blocking_create_equals_blocking (e : Task)
    (nb : Task → RustResult Task AnyhowError)
    (g : Uuid → HelixFlowResult Task) :
    NonBlocking.create e nb =
      CRUD.create e { create := fun t => lift_anyhow (nb t), get := g } := by
  cases h : nb e with
  | ok t => simp [NonBlocking.create, CRUD.create, lift_anyhow, h, HelixFlowItem.box_item]
  | error err => simp [NonBlocking.create, CRUD.create, lift_anyhow, h]

/-- C1: `blocking::CRUD::create` returns `Ok(())` exactly when the backend
returns the item unchanged; a differing returned item yields
`Mismatch{expected = the intent, actual = the backend value}`; a backend
error is propagated verbatim without any comparison. -/
theorem crud_create_verifies {ITEM : Type} [DecidableEq ITEM] [HelixFlowItem ITEM]
    (e : ITEM) (backend : Store ITEM) :
    (CRUD.create e backend = .ok () ↔ backend.create e = .ok e) ∧
    (∀ created, backend.create e = .ok created → created ≠ e →
      CRUD.create e backend =
        .error (.mismatch (HelixFlowItem.box_item e) (HelixFlowItem.box_item created))) ∧
    (∀ err, backend.create e = .error err → CRUD.create e backend = .error err) := by
  refine ⟨⟨?_, ?_⟩, ?_, ?_⟩
  · intro h
    cases hb : backend.create e with
    | ok created =>
      by_cases hc : created = e
      · rw [hc]
      · simp [CRUD.create, hb, hc] at h
    | error err => simp [CRUD.create, hb] at h
  · intro h
    simp [CRUD.create, h]
  · intro created hb hc
    simp [CRUD.create, hb, hc]
  · intro err hb
    simp [CRUD.create, hb]

/-- Witness for C1: a backend returning a different record makes create fail
with Mismatch carrying both values, and a failing backend has its error
propagated. -/
theorem crud_create_verifies_witness :
    CRUD.create ({ name := "w", id := ⟨1⟩, description := none } : Task)
      { create := fun _ => .ok { name := "x", id := ⟨2⟩, description := none }
        get := fun i => .error (.notFound "Task" i) } =
      .error (.mismatch (.task { name := "w", id := ⟨1⟩, description := none })
                        (.task { name := "x", id := ⟨2⟩, description := none })) ∧
    CRUD.create ({ name := "w", id := ⟨1⟩, description := none } : Task)
      { create := fun _ => .error (.backendError "io")
        get := fun i => .error (.notFound "Task" i) } =
      .error (.backendError "io") :=
  ⟨(crud_create_verifies _ _).2.1 _ rfl (by decide),
   (crud_create_verifies _ _).2.2 _ rfl⟩

/-- C2: `branch` yields Continue exactly when both slots are Ok and Break
otherwise, and on a relationship with at least one Err slot
`Link::create_linked_item` returns an error that is the same for every
backend — so the backend is never invoked. -/
theorem contains_branch_short_circuits (self : Contains TaskList Task) :
    (Contains.branch self = .cont self ↔ (self.left.is_ok && self.right.is_ok) = true) ∧
    (Contains.branch self = .brk self ↔ (self.left.is_ok && self.right.is_ok) = false) ∧
    ((self.left.is_ok && self.right.is_ok) = false →
      ∃ e, ∀ backend, Link.create_linked_item self backend = .error e) := by
  refine ⟨?_, ?_, ?_⟩
  · by_cases h : (self.left.is_ok && self.right.is_ok) = true
    · simp [Contains.branch, h]
    · simp [Contains.branch, h]
  · by_cases h : (self.left.is_ok && self.right.is_ok) = true
    · simp [Contains.branch, h]
    · simp [Contains.branch, h]
  · intro h
    cases hl : self.left with
    | error x =>
      refine ⟨x, fun backend => ?_⟩
      simp only [Link.create_linked_item, h]
      simp [hl]
    | ok l =>
      cases hr : self.right with
      | error y =>
        refine ⟨y, fun backend => ?_⟩
        simp only [Link.create_linked_item, h]
        simp [hl, hr]
      | ok r =>
        rw [hl, hr] at h
        simp [RustResult.is_ok] at h

/-- Witness for C2: a relationship with Left = Err(x), Right = Ok(y) yields a
backend-independent error from create_linked_item. -/
theorem contains_branch_short_circuits_witness :
    ∃ e, ∀ backend, Link.create_linked_item
      ({ left := .error (.backendError "x")
         sortorder := "a"
         right := .ok { name := "t", id := ⟨5⟩, description := none } }
        : Contains TaskList Task) backend = .error e :=
  (contains_branch_short_circuits _).2.2 (by decide)

/-- C4: on a continuable relationship, `Link::create_linked_item` invokes the
backend and verifies only the returned Right against the intended Right:
equal yields Ok(()), different yields Mismatch{expected = intended Right,
actual = returned Right}, an Err Right and a backend error are propagated,
and the outcome never depends on the returned Left side. -/
theorem link_create_verifies_right_only (l : TaskList) (r : Task)
    (self : Contains TaskList Task) (hL : self.left = .ok l) (hR : self.right = .ok r)
    (backend : RelateContains) :
    (∀ err, backend.create_linked_item self = .error err →
      Link.create_linked_item self backend = .error err) ∧
    (∀ created t, backend.create_linked_item self = .ok created →
      created.right = .ok t →
      ((t = r → Link.create_linked_item self backend = .ok ()) ∧
       (t ≠ r → Link.create_linked_item self backend =
          .error (.mismatch (.task r) (.task t))))) ∧
    (∀ created err, backend.create_linked_item self = .ok created →
      created.right = .error err →
      Link.create_linked_item self backend = .error err) ∧
    (∀ (b2 : RelateContains) created created2,
      backend.create_linked_item self = .ok created →
      b2.create_linked_item self = .ok created2 →
      created.right = created2.right →
      Link.create_linked_item self backend = Link.create_linked_item self b2) := by
  refine ⟨?_, ?_, ?_, ?_⟩
  · intro err hb
    simp [Link.create_linked_item, RustResult.is_ok, hL, hR, hb]
  · intro created t hb ht
    constructor
    · intro hteq
      simp [Link.create_linked_item, RustResult.is_ok, hL, hR, hb, ht, hteq]
    · intro htne
      simp [Link.create_linked_item, RustResult.is_ok, hL, hR, hb, ht, htne]
  · intro created err hb ht
    simp [Link.create_linked_item, RustResult.is_ok, hL, hR, hb, ht]
  · intro b2 created created2 hb hb2 hrr
    simp [Link.create_linked_item, RustResult.is_ok, hL, hR, hb, hb2, hrr]

/-- Witness for C4: a backend returning a Right that differs from the
intended Right makes create_linked_item fail with the corresponding
Mismatch. -/
theorem link_create_verifies_right_only_witness :
    Link.create_linked_item
      ({ left := .ok { name := "bl", id := ⟨11⟩ }
         sortorder := "a"
         right := .ok { name := "t", id := ⟨12⟩, description := none } }
        : Contains TaskList Task)
      { create_linked_item := fun _ =>
          .ok { left := .ok { name := "bl", id := ⟨11⟩ }
                sortorder := "a"
                right := .ok { name := "t2", id := ⟨13⟩, description := none } }
        get_linked_items := fun _ => .ok [] } =
      .error (.mismatch (.task { name := "t", id := ⟨12⟩, description := none })
                        (.task { name := "t2", id := ⟨13⟩, description := none })) :=
  ((link_create_verifies_right_only { name := "bl", id := ⟨11⟩ }
      { name := "t", id := ⟨12⟩, description := none } _ rfl rfl _).2.1
      _ { name := "t2", id := ⟨13⟩, description := none } rfl rfl).2 (by decide)

/-- C5: a lookup of an id not present in the backend returns exactly
`NotFound{itemtype: "Task", id}`: for `TestBackend::get` on any id other
than the two hardcoded records, and for `SurrealDb::get` whenever the
underlying select finds no record. -/
theorem store_get_missing_id_is_not_found (id : Uuid)
    (h1 : id ≠ uuid_task1) (h2 : id ≠ uuid_task2)
    (select : Uuid → RustResult (Option SurrealTask) AnyhowError)
    (hs : select id = .ok none) :
    TestBackend.get_task id = .error (.notFound "Task" id) ∧
    SurrealDb.get_task select id = .error (.notFound "Task" id) := by
  constructor
  · simp [TestBackend.get_task, h1, h2]
  · simp [SurrealDb.get_task, hs]

/-- Witness for C5 at a fresh id never present in either backend. -/
theorem store_get_missing_id_is_not_found_witness :
    TestBackend.get_task ⟨3⟩ = .error (.notFound "Task" ⟨3⟩) ∧
    SurrealDb.get_task (fun _ => .ok none) ⟨3⟩ = .error (.notFound "Task" ⟨3⟩) :=
  store_get_missing_id_is_not_found ⟨3⟩ (by decide) (by decide) _ rfl

/-- C7: create never mutates the item: the blocking `CRUD::create` leaves the
borrowed item unchanged (in particular its id), and whenever the verified
create succeeds, the backend-confirmed record carries exactly the
client-generated id. -/
theorem create_never_mutates_item (e : Task) (backend : Store Task) :
    (CRUD.create_tracked e backend).2 = e ∧
    (CRUD.create_tracked e backend).2.id = e.id ∧
    (∀ created, backend.create e = .ok created →
      CRUD.create e backend = .ok () → created.id = e.id) := by
  refine ⟨rfl, rfl, ?_⟩
  intro created hb hs
  by_cases hc : created = e
  · rw [hc]
  · simp [CRUD.create, hb, hc] at hs

/-- Witness for C7: with an echoing backend, the item after the call is the
item before the call, and the confirmed record keeps the generated id. -/
theorem create_never_mutates_item_witness :
    (CRUD.create_tracked ({ name := "w", id := ⟨21⟩, description := none } : Task)
       { create := fun t => .ok t, get := fun i => .error (.notFound "Task" i) }).2 =
      { name := "w", id := ⟨21⟩, description := none } ∧
    Task.id { name := "w", id := ⟨21⟩, description := none } =
      Task.id { name := "w", id := ⟨21⟩, description := none } :=
  ⟨(create_never_mutates_item _ _).1,
   (create_never_mutates_item { name := "w", id := ⟨21⟩, description := none }
      { create := fun t => .ok t, get := fun i => .error (.notFound "Task" i) }).2.2
      _ rfl (by decide)⟩

/-- C9: a stored record whose identifier is not the Uuid variant converts
with the distinct `InvalidID` error carrying the rendered identifier — in
the `TryFrom` conversions themselves (for both stored record kinds,
`SurrealTask` and `SurrealTaskList`), and hence inside `SurrealDb::get` and
`SurrealDb::create` for both `Store<Task>` and `Store<TaskList>` — never a
generic `BackendError` and never a silent default. -/
theorem invalid_stored_id_yields_invalid_id
    (t : SurrealTask) (tl : SurrealTaskList)
    (h : ∀ u, t.id.id ≠ SurrealId.uuid u)
    (hl : ∀ u, tl.id.id ≠ SurrealId.uuid u) :
    SurrealTask.try_into t = .error (.invalidID t.id.id.to_string) ∧
    SurrealTaskList.try_into tl = .error (.invalidID tl.id.id.to_string) ∧
    (∀ (select : Uuid → RustResult (Option SurrealTask) AnyhowError) (id : Uuid),
      select id = .ok (some t) →
      SurrealDb.get_task select id = .error (.invalidID t.id.id.to_string)) ∧
    (∀ (dbcreate : SurrealTask → RustResult (Option SurrealTask) AnyhowError)
        (task : Task),
      dbcreate (SurrealTask.from task) = .ok (some t) →
      SurrealDb.create_task dbcreate task = .error (.invalidID t.id.id.to_string)) ∧
    (∀ (select : Uuid → RustResult (Option SurrealTaskList) AnyhowError) (id : Uuid),
      select id = .ok (some tl) →
      SurrealDb.get_tasklist select id = .error (.invalidID tl.id.id.to_string)) ∧
    (∀ (dbcreate : SurrealTaskList → RustResult (Option SurrealTaskList) AnyhowError)
        (tasklist : TaskList),
      dbcreate (SurrealTaskList.from tasklist) = .ok (some tl) →
      SurrealDb.create_tasklist dbcreate tasklist =
        .error (.invalidID tl.id.id.to_string)) := by
  have htry : SurrealTask.try_into t = .error (.invalidID t.id.id.to_string) := by
    cases hid : t.id.id with
    | uuid u => exact absurd hid (h u)
    | strg s => simp [SurrealTask.try_into, hid]
    | number n => simp [SurrealTask.try_into, hid]
  have htryl : SurrealTaskList.try_into tl = .error (.invalidID tl.id.id.to_string) := by
    cases hid : tl.id.id with
    | uuid u => exact absurd hid (hl u)
    | strg s => simp [SurrealTaskList.try_into, hid]
    | number n => simp [SurrealTaskList.try_into, hid]
  refine ⟨htry, htryl, ?_, ?_, ?_, ?_⟩
  · intro select id hs
    simp [SurrealDb.get_task, hs, htry]
  · intro dbcreate task hs
    simp [SurrealDb.create_task, hs, htry]
  · intro select id hs
    simp [SurrealDb.get_tasklist, hs, htryl]
  · intro dbcreate tasklist hs
    simp [SurrealDb.create_tasklist, hs, htryl]

/-- Witness for C9: a Task record stored under a string identifier and a
TaskList record stored under a numeric identifier each fail to convert with
InvalidID carrying the rendered identifier, and the error surfaces through
the respective `Store::get`. -/
theorem invalid_stored_id_yields_invalid_id_witness :
    SurrealTask.try_into
      { name := "n", id := { tb := "Tasks", id := .strg "oops" }, description := none } =
      .error (.invalidID "oops") ∧
    SurrealTaskList.try_into
      { name := "bl", id := { tb := "Tasklists", id := .number 42 } } =
      .error (.invalidID "42") ∧
    SurrealDb.get_tasklist
      (fun _ => .ok (some { name := "bl", id := { tb := "Tasklists", id := .number 42 } }))
      ⟨6⟩ = .error (.invalidID "42") := by
  have h := invalid_stored_id_yields_invalid_id
    { name := "n", id := { tb := "Tasks", id := .strg "oops" }, description := none }
    { name := "bl", id := { tb := "Tasklists", id := .number 42 } }
    (fun _ h => SurrealId.noConfusion h)
    (fun _ h => SurrealId.noConfusion h)
  exact ⟨h.1, h.2.1, h.2.2.2.2.1 _ ⟨6⟩ rfl⟩

end HelixFlow
